import Mathlib

/-!
Verification of the lightning-report Flask service (`src/app.py`).

The service exposes three HTTP GET endpoints:
* `/api/random` — a random integer in [1, 99];
* `/api/kma/lightning-strikes` — a simulator producing 0–5 synthetic strike
  records scattered around a fixed origin;
* `/api/gmp/lightning-report` — calls the simulator over HTTP and filters the
  returned records by a flat-earth radius predicate.

Modelling conventions:
* Python floats are modelled as exact rationals `ℚ`; all the arithmetic the
  claims are about (differences, squares, comparisons of small decimals) is
  carried out exactly.
* `random.randint a b` / `random.uniform a b` results enter the model as
  explicit inputs; their documented range contracts become hypotheses.
* JSON values are a small inductive `Json`; Python runtime errors
  (`ValueError` from `.json()`, `KeyError` from `d[k]`, ...) are an inductive
  `PyErr`, and fallible body processing lives in `Except PyErr`.
-/

/-- Fixed origin latitude of Gimpo airport (`GMP_LATITUDE = 37.558`). -/
def GMP_LATITUDE : ℚ := 37.558

/-- Fixed origin longitude of Gimpo airport (`GMP_LONGITUDE = 126.794`). -/
def GMP_LONGITUDE : ℚ := 126.794

/-- Monitoring radius in kilometres (`MONITORING_RADIUS_KM = 5`). -/
def MONITORING_RADIUS_KM : ℚ := 5

/-- `is_within_radius(lat, lon)` from `src/app.py`: converts the radius to
degrees with the fixed factor `1/111` and compares the squared planar
Euclidean distance to the squared radius, strictly. -/
def is_within_radius (lat lon : ℚ) : Bool :=
  let deg_per_km : ℚ := 1.0 / 111.0
  let radius_in_deg := MONITORING_RADIUS_KM * deg_per_km
  let distance_sq := (lat - GMP_LATITUDE) ^ 2 + (lon - GMP_LONGITUDE) ^ 2
  decide (distance_sq < radius_in_deg ^ 2)

/-- A JSON value, as produced by `jsonify` / consumed by `response.json()`. -/
inductive Json where
  | null : Json
  | bool (b : Bool) : Json
  | num (q : ℚ) : Json
  | str (s : String) : Json
  | arr (xs : List Json) : Json
  | obj (kvs : List (String × Json)) : Json

/-- Python runtime exceptions the report path can raise. -/
inductive PyErr where
  | valueError : PyErr
  | keyError : PyErr
  | typeError : PyErr
  | attributeError : PyErr
deriving DecidableEq

/-- One simulated strike record, as built inside `kma_lightning_simulator`. -/
structure Strike where
  id : String
  latitude : ℚ
  longitude : ℚ
  intensity_kA : ℤ
deriving DecidableEq

/-- The JSON dict `{'id': ..., 'latitude': ..., 'longitude': ...,
'intensity_kA': ...}` for one strike record. -/
def Strike.toJson (s : Strike) : Json :=
  Json.obj [("id", Json.str s.id), ("latitude", Json.num s.latitude),
    ("longitude", Json.num s.longitude),
    ("intensity_kA", Json.num (s.intensity_kA : ℚ))]

/-- Python's `round(x, 6)`: round to the nearest multiple of `10⁻⁶`
(modelled on exact rationals, ties resolved to one neighbour). -/
def round6 (x : ℚ) : ℚ := (round (x * 1000000) : ℤ) / 1000000

/-- The random draws consumed by one iteration of the simulator's loop:
`random.randint(1000, 9999)` for the id, `random.uniform(-0.06, 0.06)` for
each coordinate offset, `random.randint(10, 100)` for the intensity. -/
structure StrikeDraw where
  idNum : ℤ
  latOff : ℚ
  lonOff : ℚ
  intensity : ℤ
deriving DecidableEq

/-- The range contracts of the random draws made in the simulator's loop
body (`randint` is inclusive on both ends, `uniform a b` lies in `[a, b]`). -/
def ValidStrikeDraw (d : StrikeDraw) : Prop :=
  (1000 ≤ d.idNum ∧ d.idNum ≤ 9999)
    ∧ (-0.06 ≤ d.latOff ∧ d.latOff ≤ 0.06)
    ∧ (-0.06 ≤ d.lonOff ∧ d.lonOff ≤ 0.06)
    ∧ (10 ≤ d.intensity ∧ d.intensity ≤ 100)

instance (d : StrikeDraw) : Decidable (ValidStrikeDraw d) := by
  unfold ValidStrikeDraw; infer_instance

/-- The strike dict built in one loop iteration of `kma_lightning_simulator`
from the iteration's random draws. -/
def mkStrike (d : StrikeDraw) : Strike :=
  { id := "strike_" ++ toString d.idNum
    latitude := round6 (GMP_LATITUDE + d.latOff)
    longitude := round6 (GMP_LONGITUDE + d.lonOff)
    intensity_kA := d.intensity }

/-- The `strikes` list accumulated by the simulator's `for i in
range(num_strikes)` loop, one record per iteration. -/
def simStrikes (num_strikes : ℕ) (draw : ℕ → StrikeDraw) : List Strike :=
  (List.range num_strikes).map (fun i => mkStrike (draw i))

/-- The simulator's response body
`{'status': 'success', 'source': 'KMA Virtual Lightning Detector',
'data': [...]}` for a given data list. -/
def simResponseJson (data : List Strike) : Json :=
  Json.obj [("status", Json.str "success"),
    ("source", Json.str "KMA Virtual Lightning Detector"),
    ("data", Json.arr (data.map Strike.toJson))]

/-- `kma_lightning_simulator` from `src/app.py`, as a function of the
outcome of its random draws: `num_strikes = random.randint(0, 5)` and the
per-iteration draws. -/
def kma_lightning_simulator (num_strikes : ℕ) (draw : ℕ → StrikeDraw) : Json :=
  simResponseJson (simStrikes num_strikes draw)

/-- `random_number` from `src/app.py` (`/api/random`): returns
`jsonify({'number': number})` for `number = random.randint(1, 99)`. -/
def random_number (number : ℤ) : Json :=
  Json.obj [("number", Json.num (number : ℚ))]

/-- Python `d.get(k, default)` on a parsed JSON value: returns the value at
the key (or the default when absent) for a dict; raises `AttributeError`
when the value is not a dict. -/
def dictGet (j : Json) (k : String) (default : Json) : Except PyErr Json :=
  match j with
  | Json.obj kvs => Except.ok ((kvs.lookup k).getD default)
  | _ => Except.error PyErr.attributeError

/-- Python subscripting `d[k]` on a parsed JSON value: `KeyError` when the
key is absent, `TypeError` when the value is not a dict. -/
def getKey (j : Json) (k : String) : Except PyErr Json :=
  match j with
  | Json.obj kvs =>
    match kvs.lookup k with
    | some v => Except.ok v
    | none => Except.error PyErr.keyError
  | _ => Except.error PyErr.typeError

/-- `d[k]` used as a number (the coordinates fed to `is_within_radius`);
a non-numeric value raises `TypeError` inside the arithmetic. -/
def getNumKey (j : Json) (k : String) : Except PyErr ℚ := do
  match ← getKey j k with
  | Json.num q => Except.ok q
  | _ => Except.error PyErr.typeError

/-- Iterating a JSON value as Python iterates `all_strikes`; anything but a
list raises `TypeError`. -/
def asList (j : Json) : Except PyErr (List Json) :=
  match j with
  | Json.arr xs => Except.ok xs
  | _ => Except.error PyErr.typeError

/-- The report's list comprehension
`[strike for strike in all_strikes if is_within_radius(strike['latitude'],
strike['longitude'])]`, evaluated left to right; the first record with a
missing or non-numeric coordinate raises. -/
def filterNearby : List Json → Except PyErr (List Json)
  | [] => Except.ok []
  | strike :: rest => do
    let lat ← getNumKey strike "latitude"
    let lon ← getNumKey strike "longitude"
    let tail ← filterNearby rest
    Except.ok (if is_within_radius lat lon then strike :: tail else tail)

/-- Processing of a successfully parsed 2xx body inside the report's `try`
block: `response.json().get('data', [])` followed by the filtering
comprehension. -/
def reportData (j : Json) : Except PyErr (List Json) := do
  let d ← dictGet j "data" (Json.arr [])
  let all_strikes ← asList d
  filterNearby all_strikes

/-- The outcome of the report endpoint's outbound `requests.get` call.
`exn msg` covers both a transport-level failure of `requests.get` and a
non-2xx status turned into an exception by `response.raise_for_status()`
(both are `requests.exceptions.RequestException`).  `ok body` is a 2xx
response; `body = some j` when its text parses as the JSON value `j`, and
`body = none` when `response.json()` raises `ValueError`. -/
inductive CallResult where
  | exn (msg : String) : CallResult
  | ok (body : Option Json) : CallResult

/-- What one execution of the report endpoint produces: an HTTP response
(status code and JSON body), or an exception that escapes the handler. -/
inductive ReportResult where
  | response (status : ℕ) (body : Json) : ReportResult
  | uncaught (e : PyErr) : ReportResult

/-- Whether the endpoint produced an HTTP response at all (as opposed to an
exception escaping the `try/except`). -/
def ReportResult.isResponse : ReportResult → Bool
  | ReportResult.response _ _ => true
  | ReportResult.uncaught _ => false

/-- The error body `{'status': 'error', 'message': f"Failed to call KMA API:
{e}"}` returned from the `except` clause. -/
def reportErrorBody (e : String) : Json :=
  Json.obj [("status", Json.str "error"),
    ("message", Json.str ("Failed to call KMA API: " ++ e))]

/-- The success body `{'status': 'success', 'report_for': 'Gimpo Airport
(GMP)', 'nearby_strikes_count': len(nearby_strikes), 'strikes':
nearby_strikes}`. -/
def reportSuccessBody (nearby_strikes : List Json) : Json :=
  Json.obj [("status", Json.str "success"),
    ("report_for", Json.str "Gimpo Airport (GMP)"),
    ("nearby_strikes_count", Json.num (nearby_strikes.length : ℚ)),
    ("strikes", Json.arr nearby_strikes)]

/-- `gmp_lightning_report` from `src/app.py`, as a function of the outcome
of its outbound call.  The `except requests.exceptions.RequestException`
clause catches exactly the `CallResult.exn` case; any `PyErr` raised while
decoding or filtering the body propagates uncaught. -/
def gmp_lightning_report (call : CallResult) : ReportResult :=
  match call with
  | CallResult.exn e => ReportResult.response 500 (reportErrorBody e)
  | CallResult.ok none => ReportResult.uncaught PyErr.valueError
  | CallResult.ok (some j) =>
    match reportData j with
    | Except.ok nearby_strikes =>
        ReportResult.response 200 (reportSuccessBody nearby_strikes)
    | Except.error e => ReportResult.uncaught e

/-- The filtering predicate of the report, on a structured strike record:
`is_within_radius(strike['latitude'], strike['longitude'])`. -/
def strikePred (s : Strike) : Bool :=
  is_within_radius s.latitude s.longitude

/-- A string of the shape the simulator assigns to `'id'`: the fixed prefix
`"strike_"` followed by a 4-digit integer drawn from `[1000, 9999]`. -/
def IsStrikeId (x : String) : Prop :=
  ∃ k : ℤ, 1000 ≤ k ∧ k ≤ 9999 ∧ x = "strike_" ++ toString k

/-- A concrete in-range outcome for one iteration's random draws. -/
def demoDraw : StrikeDraw :=
  { idNum := 1000, latOff := 0.01, lonOff := -0.02, intensity := 50 }

/-- A draw stream that repeats `demoDraw` on every iteration. -/
def demoDrawFun : ℕ → StrikeDraw := fun _ => demoDraw

/-- The strike record of the end-to-end example: latitude `37.560`,
longitude `126.795`, intensity `50`. -/
def demoStrike : Strike :=
  { id := "strike_0001", latitude := 37.560, longitude := 126.795,
    intensity_kA := 50 }

/-- A strike record well outside the radius (latitude `37.700`). -/
def demoFarStrike : Strike :=
  { id := "strike_0002", latitude := 37.700, longitude := 126.794,
    intensity_kA := 30 }

/-- A record missing the `'latitude'` key. -/
def noLatRecord : Json :=
  Json.obj [("id", Json.str "strike_0001"), ("longitude", Json.num 126.794)]

/-- A 2xx body whose data list contains a record missing `'latitude'`. -/
def noLatBody : Json := Json.obj [("data", Json.arr [noLatRecord])]

/-- A record with `'latitude'` but missing the `'longitude'` key. -/
def noLonRecord : Json := Json.obj [("latitude", Json.num 37.558)]

/-- A 2xx body whose data list contains a record missing `'longitude'`. -/
def noLonBody : Json := Json.obj [("data", Json.arr [noLonRecord])]

/-- The end-to-end example record with an arbitrary id: latitude `37.560`,
longitude `126.795`, intensity `50`. -/
def demoRecord (s : String) : Strike :=
  { id := s, latitude := 37.560, longitude := 126.795, intensity_kA := 50 }

theorem round6_mono : Monotone round6 := by
  intro x y h
  unfold round6
  have hr : round (x * 1000000) ≤ round (y * 1000000) := by
    rw [round_eq, round_eq]
    exact Int.floor_le_floor (by linarith)
  have hq : ((round (x * 1000000) : ℤ) : ℚ) ≤ ((round (y * 1000000) : ℤ) : ℚ) := by
    exact_mod_cast hr
  linarith

theorem round6_fixed {x : ℚ} {n : ℤ} (h : x * 1000000 = (n : ℚ)) :
    round6 x = x := by
  unfold round6
  rw [h, round_intCast]
  linarith

theorem round6_lat_lo : round6 (GMP_LATITUDE + (-0.06)) = GMP_LATITUDE + (-0.06) :=
  round6_fixed (n := 37498000) (by norm_num [GMP_LATITUDE])

theorem round6_lat_hi : round6 (GMP_LATITUDE + 0.06) = GMP_LATITUDE + 0.06 :=
  round6_fixed (n := 37618000) (by norm_num [GMP_LATITUDE])

theorem round6_lon_lo : round6 (GMP_LONGITUDE + (-0.06)) = GMP_LONGITUDE + (-0.06) :=
  round6_fixed (n := 126734000) (by norm_num [GMP_LONGITUDE])

theorem round6_lon_hi : round6 (GMP_LONGITUDE + 0.06) = GMP_LONGITUDE + 0.06 :=
  round6_fixed (n := 126854000) (by norm_num [GMP_LONGITUDE])

theorem round6_lat_bound {off : ℚ} (h1 : -0.06 ≤ off) (h2 : off ≤ 0.06) :
    |round6 (GMP_LATITUDE + off) - GMP_LATITUDE| ≤ 0.06 := by
  have hlo : round6 (GMP_LATITUDE + (-0.06)) ≤ round6 (GMP_LATITUDE + off) :=
    round6_mono (by linarith)
  have hhi : round6 (GMP_LATITUDE + off) ≤ round6 (GMP_LATITUDE + 0.06) :=
    round6_mono (by linarith)
  rw [round6_lat_lo] at hlo
  rw [round6_lat_hi] at hhi
  rw [abs_le]
  constructor <;> linarith

theorem round6_lon_bound {off : ℚ} (h1 : -0.06 ≤ off) (h2 : off ≤ 0.06) :
    |round6 (GMP_LONGITUDE + off) - GMP_LONGITUDE| ≤ 0.06 := by
  have hlo : round6 (GMP_LONGITUDE + (-0.06)) ≤ round6 (GMP_LONGITUDE + off) :=
    round6_mono (by linarith)
  have hhi : round6 (GMP_LONGITUDE + off) ≤ round6 (GMP_LONGITUDE + 0.06) :=
    round6_mono (by linarith)
  rw [round6_lon_lo] at hlo
  rw [round6_lon_hi] at hhi
  rw [abs_le]
  constructor <;> linarith

theorem getNumKey_toJson_lat (s : Strike) :
    getNumKey s.toJson "latitude" = Except.ok s.latitude := rfl

theorem getNumKey_toJson_lon (s : Strike) :
    getNumKey s.toJson "longitude" = Except.ok s.longitude := rfl

theorem filterNearby_map_toJson (xs : List Strike) :
    filterNearby (xs.map Strike.toJson)
      = Except.ok ((xs.filter strikePred).map Strike.toJson) := by
  induction xs with
  | nil => rfl
  | cons s rest ih =>
    simp only [List.map_cons, filterNearby, getNumKey_toJson_lat,
      getNumKey_toJson_lon, ih, bind, Except.bind, List.filter_cons,
      strikePred]
    by_cases h : is_within_radius s.latitude s.longitude
    · simp [h]
    · simp [h]

/-- C1 -- `is_within_radius` holds exactly when the squared planar distance
in degrees to the origin `(37.558, 126.794)` is strictly below the square of
the radius converted to degrees by `radius_km * (1/111)`; a point exactly on
the boundary is excluded. -/
theorem is_within_radius_iff_sq_lt :
    (∀ lat lon : ℚ,
      is_within_radius lat lon = true ↔
        (lat - 37.558) ^ 2 + (lon - 126.794) ^ 2
          < (MONITORING_RADIUS_KM * (1 / 111)) ^ 2)
    ∧ is_within_radius (37.558 + MONITORING_RADIUS_KM * (1 / 111)) 126.794
        = false := by
  constructor
  · intro lat lon
    simp only [is_within_radius, GMP_LATITUDE, GMP_LONGITUDE,
      MONITORING_RADIUS_KM, decide_eq_true_eq]
    norm_num
  · simp only [is_within_radius, GMP_LATITUDE, GMP_LONGITUDE,
      MONITORING_RADIUS_KM, decide_eq_false_iff_not, not_lt]
    norm_num

/-- C2 -- when the outbound call returns a 2xx simulator response whose data
list is `records`, the report responds 200 with the success body: status
`"success"`, the fixed `report_for` label, `strikes` exactly the in-order
subsequence of `records` passing `is_within_radius`, and
`nearby_strikes_count` its length (built into `reportSuccessBody`). -/
theorem report_success_filters (records : List Strike) :
    gmp_lightning_report (CallResult.ok (some (simResponseJson records)))
      = ReportResult.response 200
          (reportSuccessBody ((records.filter strikePred).map Strike.toJson)) := by
  have h2 : reportData (simResponseJson records)
      = Except.ok ((records.filter strikePred).map Strike.toJson) := by
    have h1 : reportData (simResponseJson records)
        = filterNearby (records.map Strike.toJson) := rfl
    rw [h1, filterNearby_map_toJson]
  simp only [gmp_lightning_report, h2]

/-- Witness for C2 at a concrete two-record data list. -/
theorem report_success_filters_witness :
    gmp_lightning_report
        (CallResult.ok (some (simResponseJson [demoStrike, demoFarStrike])))
      = ReportResult.response 200
          (reportSuccessBody
            (([demoStrike, demoFarStrike].filter strikePred).map Strike.toJson)) :=
  report_success_filters [demoStrike, demoFarStrike]

/-- C3 (amended) -- counterexample to the original claim: a 2xx outcome whose
body is not valid JSON makes the report endpoint raise an uncaught
`ValueError` rather than produce any HTTP response, so not every
non-failing call outcome yields a success response. -/
theorem report_invalid_json_no_response :
    gmp_lightning_report (CallResult.ok none)
        = ReportResult.uncaught PyErr.valueError
    ∧ (gmp_lightning_report (CallResult.ok none)).isResponse = false :=
  ⟨rfl, rfl⟩

/-- C3 (amended) -- a `RequestException` outcome (transport failure or
non-2xx status) yields HTTP 500 with the error body embedding the
underlying error; a 2xx outcome whose parsed body processes cleanly yields
the success response; and the remaining 2xx outcomes (unparsable body, or a
body whose processing raises) end in an uncaught exception, not an error
body. -/
theorem gmp_report_outcome_cases :
    (∀ e : String, gmp_lightning_report (CallResult.exn e)
        = ReportResult.response 500 (reportErrorBody e))
    ∧ (∀ j nearby, reportData j = Except.ok nearby →
        gmp_lightning_report (CallResult.ok (some j))
          = ReportResult.response 200 (reportSuccessBody nearby))
    ∧ gmp_lightning_report (CallResult.ok none)
        = ReportResult.uncaught PyErr.valueError
    ∧ (∀ j err, reportData j = Except.error err →
        gmp_lightning_report (CallResult.ok (some j))
          = ReportResult.uncaught err) := by
  refine ⟨fun e => rfl, fun j nearby h => ?_, rfl, fun j err h => ?_⟩
  · simp only [gmp_lightning_report, h]
  · simp only [gmp_lightning_report, h]

/-- Witness for C3's amended statement at concrete call outcomes. -/
theorem gmp_report_outcome_cases_witness :
    gmp_lightning_report (CallResult.exn "connection refused")
        = ReportResult.response 500 (reportErrorBody "connection refused")
    ∧ gmp_lightning_report (CallResult.ok (some (Json.obj [])))
        = ReportResult.response 200 (reportSuccessBody [])
    ∧ gmp_lightning_report (CallResult.ok (some noLatBody))
        = ReportResult.uncaught PyErr.keyError :=
  ⟨gmp_report_outcome_cases.1 "connection refused",
    gmp_report_outcome_cases.2.1 (Json.obj []) [] rfl,
    gmp_report_outcome_cases.2.2.2 noLatBody PyErr.keyError rfl⟩

theorem validStrikeDraw_demoDraw : ValidStrikeDraw demoDraw := by
  norm_num [ValidStrikeDraw, demoDraw]

theorem strikePred_demoStrike : strikePred demoStrike = true := by
  simp only [strikePred, demoStrike, is_within_radius, GMP_LATITUDE,
    GMP_LONGITUDE, MONITORING_RADIUS_KM, decide_eq_true_eq]
  norm_num

theorem strikePred_demoFarStrike : strikePred demoFarStrike = false := by
  simp only [strikePred, demoFarStrike, is_within_radius, GMP_LATITUDE,
    GMP_LONGITUDE, MONITORING_RADIUS_KM, decide_eq_false_iff_not, not_lt]
  norm_num

/-- C4 -- under the range contracts of the simulator's random draws, the
data list has length `num_strikes ≤ 5` and every record has intensity in
`[10, 100]` and coordinates equal to the origin plus an offset in
`[-0.06, 0.06]` rounded to 6 decimals, hence within `0.06` degrees of the
origin. -/
theorem kma_simulator_bounds (num_strikes : ℕ) (draw : ℕ → StrikeDraw)
    (hn : num_strikes ≤ 5) (hdraw : ∀ i, ValidStrikeDraw (draw i)) :
    kma_lightning_simulator num_strikes draw
        = simResponseJson (simStrikes num_strikes draw)
    ∧ (simStrikes num_strikes draw).length = num_strikes
    ∧ (simStrikes num_strikes draw).length ≤ 5
    ∧ ∀ s ∈ simStrikes num_strikes draw,
        (10 ≤ s.intensity_kA ∧ s.intensity_kA ≤ 100)
        ∧ (∃ off : ℚ, -0.06 ≤ off ∧ off ≤ 0.06
            ∧ s.latitude = round6 (GMP_LATITUDE + off))
        ∧ |s.latitude - GMP_LATITUDE| ≤ 0.06
        ∧ (∃ off : ℚ, -0.06 ≤ off ∧ off ≤ 0.06
            ∧ s.longitude = round6 (GMP_LONGITUDE + off))
        ∧ |s.longitude - GMP_LONGITUDE| ≤ 0.06 := by
  refine ⟨rfl, by simp [simStrikes], by simpa [simStrikes] using hn, ?_⟩
  intro s hs
  simp only [simStrikes, List.mem_map, List.mem_range] at hs
  obtain ⟨i, _, rfl⟩ := hs
  obtain ⟨hid, hlat, hlon, hint⟩ := hdraw i
  exact ⟨⟨hint.1, hint.2⟩,
    ⟨(draw i).latOff, hlat.1, hlat.2, rfl⟩,
    round6_lat_bound hlat.1 hlat.2,
    ⟨(draw i).lonOff, hlon.1, hlon.2, rfl⟩,
    round6_lon_bound hlon.1 hlon.2⟩

/-- Witness for C4 at three iterations of a concrete in-range draw. -/
theorem kma_simulator_bounds_witness :
    (simStrikes 3 demoDrawFun).length = 3
    ∧ (simStrikes 3 demoDrawFun).length ≤ 5 :=
  ⟨(kma_simulator_bounds 3 demoDrawFun (by norm_num)
      fun _ => validStrikeDraw_demoDraw).2.1,
    (kma_simulator_bounds 3 demoDrawFun (by norm_num)
      fun _ => validStrikeDraw_demoDraw).2.2.1⟩

/-- C5 -- the radius filter is idempotent: a list of in-radius records is
returned unchanged, and filtering twice equals filtering once. -/
theorem filter_within_radius_idempotent :
    (∀ xs : List Strike, (∀ s ∈ xs, strikePred s = true) →
        xs.filter strikePred = xs)
    ∧ ∀ xs : List Strike,
        (xs.filter strikePred).filter strikePred = xs.filter strikePred := by
  constructor
  · intro xs h
    exact List.filter_eq_self.mpr h
  · intro xs
    rw [List.filter_filter]
    simp only [Bool.and_self]

/-- Witness for C5 on concrete in-radius and mixed lists. -/
theorem filter_within_radius_idempotent_witness :
    [demoStrike].filter strikePred = [demoStrike]
    ∧ ([demoStrike, demoFarStrike].filter strikePred).filter strikePred
        = [demoStrike, demoFarStrike].filter strikePred :=
  ⟨filter_within_radius_idempotent.1 [demoStrike]
      (by intro s hs; rw [List.mem_singleton] at hs; subst hs
          exact strikePred_demoStrike),
    filter_within_radius_idempotent.2 [demoStrike, demoFarStrike]⟩

theorem is_within_radius_origin : is_within_radius 37.558 126.794 = true := by
  simp only [is_within_radius, GMP_LATITUDE, GMP_LONGITUDE,
    MONITORING_RADIUS_KM, decide_eq_true_eq]
  norm_num

theorem is_within_radius_far : is_within_radius 37.700 126.794 = false := by
  simp only [is_within_radius, GMP_LATITUDE, GMP_LONGITUDE,
    MONITORING_RADIUS_KM, decide_eq_false_iff_not, not_lt]
  norm_num

theorem is_within_radius_demo : is_within_radius 37.560 126.795 = true := by
  simp only [is_within_radius, GMP_LATITUDE, GMP_LONGITUDE,
    MONITORING_RADIUS_KM, decide_eq_true_eq]
  norm_num

/-- C6 -- with the fixed origin and 5 km radius, the origin itself is inside
and `(37.700, 126.794)` is outside; and a simulator data list holding the
single record `(37.560, 126.795, 50)` yields a report whose `strikes` list
is exactly that record and whose count (inside `reportSuccessBody`) is 1. -/
theorem demo_point_and_report :
    is_within_radius 37.558 126.794 = true
    ∧ is_within_radius 37.700 126.794 = false
    ∧ ∀ s : String,
        gmp_lightning_report
            (CallResult.ok (some (simResponseJson [demoRecord s])))
          = ReportResult.response 200
              (reportSuccessBody [(demoRecord s).toJson]) := by
  refine ⟨is_within_radius_origin, is_within_radius_far, fun s => ?_⟩
  have hp : strikePred (demoRecord s) = true := is_within_radius_demo
  have h3 : [demoRecord s].filter strikePred = [demoRecord s] := by
    simp [hp]
  have h2 : reportData (simResponseJson [demoRecord s])
      = Except.ok ([demoRecord s].map Strike.toJson) := by
    have h1 : reportData (simResponseJson [demoRecord s])
        = filterNearby ([demoRecord s].map Strike.toJson) := rfl
    rw [h1, filterNearby_map_toJson, h3]
  simp only [gmp_lightning_report, h2, List.map_cons, List.map_nil]

/-- Witness for C6's report part at a concrete id. -/
theorem demo_point_and_report_witness :
    gmp_lightning_report
        (CallResult.ok (some (simResponseJson [demoRecord "strike_1234"])))
      = ReportResult.response 200
          (reportSuccessBody [(demoRecord "strike_1234").toJson]) :=
  demo_point_and_report.2.2 "strike_1234"

/-- C7 -- the random-number endpoint returns `{'number': n}` for the drawn
`n = random.randint(1, 99)`, an integer with `1 ≤ n ≤ 99`; it takes no other
input and has no error path. -/
theorem random_number_contract (number : ℤ) (h1 : 1 ≤ number)
    (h2 : number ≤ 99) :
    random_number number = Json.obj [("number", Json.num (number : ℚ))]
    ∧ 1 ≤ number ∧ number ≤ 99 :=
  ⟨rfl, h1, h2⟩

/-- Witness for C7 at the draw `50`. -/
theorem random_number_contract_witness :
    random_number 50 = Json.obj [("number", Json.num ((50 : ℤ) : ℚ))]
    ∧ (1 : ℤ) ≤ 50 ∧ (50 : ℤ) ≤ 99 :=
  random_number_contract 50 (by norm_num) (by norm_num)

/-- C8 -- a 2xx body that is a JSON object with no `data` key is treated as
an empty strike list: the report succeeds with `strikes = []` and count 0
(inside `reportSuccessBody []`), not an error. -/
theorem report_missing_data_field (kvs : List (String × Json))
    (h : kvs.lookup "data" = none) :
    gmp_lightning_report (CallResult.ok (some (Json.obj kvs)))
      = ReportResult.response 200 (reportSuccessBody []) := by
  have h2 : reportData (Json.obj kvs) = Except.ok [] := by
    simp only [reportData, dictGet, h, Option.getD_none, asList, filterNearby,
      bind, Except.bind]
  simp only [gmp_lightning_report, h2]

/-- Witness for C8 at a body with only a `status` key. -/
theorem report_missing_data_field_witness :
    gmp_lightning_report
        (CallResult.ok (some (Json.obj [("status", Json.str "success")])))
      = ReportResult.response 200 (reportSuccessBody []) :=
  report_missing_data_field [("status", Json.str "success")] rfl

/-- C9 -- every simulated record's id is the fixed prefix `"strike_"`
followed by a 4-digit integer in `[1000, 9999]`, and ids are not
deduplicated: some outcome of the draws puts two records with the same id
in one response. -/
theorem sim_ids_format_and_collision :
    (∀ (num_strikes : ℕ) (draw : ℕ → StrikeDraw),
      (∀ i, ValidStrikeDraw (draw i)) →
      ∀ s ∈ simStrikes num_strikes draw, IsStrikeId s.id)
    ∧ ∃ (num_strikes : ℕ) (draw : ℕ → StrikeDraw),
        num_strikes ≤ 5 ∧ (∀ i, ValidStrikeDraw (draw i))
        ∧ ∃ a b : Strike,
            simStrikes num_strikes draw = [a, b] ∧ a.id = b.id := by
  constructor
  · intro n draw hdraw s hs
    simp only [simStrikes, List.mem_map, List.mem_range] at hs
    obtain ⟨i, _, rfl⟩ := hs
    exact ⟨(draw i).idNum, (hdraw i).1.1, (hdraw i).1.2, rfl⟩
  · exact ⟨2, demoDrawFun, by norm_num, fun _ => validStrikeDraw_demoDraw,
      mkStrike demoDraw, mkStrike demoDraw, rfl, rfl⟩

/-- Witness for C9's id-format part at a concrete draw. -/
theorem sim_ids_format_witness : IsStrikeId (mkStrike demoDraw).id :=
  sim_ids_format_and_collision.1 1 demoDrawFun
    (fun _ => validStrikeDraw_demoDraw) (mkStrike demoDraw)
    (by rw [show simStrikes 1 demoDrawFun = [mkStrike demoDraw] from rfl]
        exact List.mem_singleton.mpr rfl)

/-- C10 -- the report endpoint's handler catches only
`requests.exceptions.RequestException`: a 2xx response with an unparsable
body raises an uncaught `ValueError`, and a 2xx body whose data list holds
a record lacking `'latitude'` (or `'longitude'`) raises an uncaught
`KeyError`; none of these produce an HTTP response, so no error body is
returned. -/
theorem report_uncaught_exceptions :
    gmp_lightning_report (CallResult.ok none)
        = ReportResult.uncaught PyErr.valueError
    ∧ gmp_lightning_report (CallResult.ok (some noLatBody))
        = ReportResult.uncaught PyErr.keyError
    ∧ gmp_lightning_report (CallResult.ok (some noLonBody))
        = ReportResult.uncaught PyErr.keyError
    ∧ (gmp_lightning_report (CallResult.ok none)).isResponse = false
    ∧ (gmp_lightning_report (CallResult.ok (some noLatBody))).isResponse
        = false
    ∧ (gmp_lightning_report (CallResult.ok (some noLonBody))).isResponse
        = false :=
  ⟨rfl, rfl, rfl, rfl, rfl, rfl⟩

/-- Witness for C1's equivalence at the origin point. -/
theorem is_within_radius_iff_sq_lt_witness :
    is_within_radius 37.558 126.794 = true ↔
      ((37.558 : ℚ) - 37.558) ^ 2 + ((126.794 : ℚ) - 126.794) ^ 2
        < (MONITORING_RADIUS_KM * (1 / 111)) ^ 2 :=
  is_within_radius_iff_sq_lt.1 37.558 126.794
